import Mathlib

/-!
# ClearFATDirtyBit

A shallow embedding of `src/ClearFATDirtyBit.c` (one function, `main`) and the
properties of it that the specification states.

Machine integers are natural numbers holding the bit pattern, reduced
explicitly at every store (`% 2 ^ 8` for `uint8_t`, `% 2 ^ 16` for `wchar_t`,
`% 2 ^ 32` for `unsigned`).  Every call of `main` into the operating system is
recorded, in program order and together with the value it returned, in the
`trace` of the run; the values the operating system returns are the fields of
`Env`.
-/

set_option maxRecDepth 100000

namespace ClearFATDirtyBit

/-! ## Machine integers -/

/-- Conversion of a value to `uint8_t`. -/
def to_u8 (v : Nat) : Nat := v % 2 ^ 8

/-- Conversion of a value to `wchar_t`, which is 16 bits wide on Windows (line 71). -/
def to_wchar (v : Nat) : Nat := v % 2 ^ 16

/-- Bit pattern of the 32-bit `int` that a `char` holding the byte `c` promotes
to.  `char` is signed here, so a byte with the high bit set is sign-extended. -/
def promote_char (c : Nat) : Nat :=
  if c % 256 < 128 then c % 256 else 2 ^ 32 - 256 + c % 256

/-- Bit pattern of `~v` for a 32-bit `int`. -/
def int_not (v : Nat) : Nat := 2 ^ 32 - 1 - v % 2 ^ 32

/-- The value of a `w`-bit pattern read as a signed (two's complement) integer. -/
def as_signed (w : Nat) (v : Nat) : Int :=
  if v % 2 ^ w < 2 ^ (w - 1) then (v % 2 ^ w : Nat) else (v % 2 ^ w : Nat) - (2 ^ w : Nat)

/-! ## The `name_buf_t` union (lines 67-72) -/

/-- The union `name_buf_t`, held as its eight 16-bit units `wcs[0..7]`; the
integer lanes `i64` and `i32` are views of the same sixteen bytes. -/
structure name_buf_t where
  wcs : List Nat
  deriving DecidableEq, Repr

namespace name_buf_t

/-- Unit `wcs[i]`. -/
def at_wcs (b : name_buf_t) (i : Nat) : Nat := b.wcs.getD i 0

/-- Lane `i64[k]`: units `4k .. 4k+3`, little endian, read as `int64_t`. -/
def i64 (b : name_buf_t) (k : Nat) : Int :=
  as_signed 64 (b.at_wcs (4 * k) + b.at_wcs (4 * k + 1) * 2 ^ 16
    + b.at_wcs (4 * k + 2) * 2 ^ 32 + b.at_wcs (4 * k + 3) * 2 ^ 48)

/-- Lane `i32[k]`: units `2k` and `2k+1`, little endian, read as `int32_t`. -/
def i32 (b : name_buf_t) (k : Nat) : Int :=
  as_signed 32 (b.at_wcs (2 * k) + b.at_wcs (2 * k + 1) * 2 ^ 16)

/-- Assignment `wcs[i] = v`. -/
def set_wcs (b : name_buf_t) (i : Nat) (v : Nat) : name_buf_t :=
  ⟨b.wcs.set i (to_wchar v)⟩

/-- A callee that is given `wcs` and the capacity `ARRAYSIZE(name.wcs) = 8` and
stores the units `units` from index 0 on: at most eight units are stored, each
as a `wchar_t`; the units it does not store keep their value. -/
def store (b : name_buf_t) (units : List Nat) : name_buf_t :=
  ⟨(List.range 8).map fun i => if i < units.length then to_wchar (units.getD i 0) else b.at_wcs i⟩

/-- The NUL-terminated wide string that starts at `wcs`. -/
def wcsz (b : name_buf_t) : List Nat := b.wcs.takeWhile fun u => u != 0

end name_buf_t

/-- Line 76: `{ .wcs = L"\\\\.\\\0:" }`, which is `\\.\`, NUL, `:`, NUL, NUL. -/
def name_init : name_buf_t := ⟨[92, 92, 46, 92, 0, 58, 0, 0]⟩

/-- Line 100: `{ .wcs = L"FAT32" }`. -/
def fat32 : name_buf_t := ⟨[70, 65, 84, 51, 50, 0, 0, 0]⟩

/-- Line 101: `{ .wcs = L"exFAT" }`. -/
def exfat : name_buf_t := ⟨[101, 120, 70, 65, 84, 0, 0, 0]⟩

/-! ## Texts written by `main` -/

/-- Line 81. -/
def usage_text : String :=
  "Syntax error. Usage:\nClearFATDirtyBit.exe <driveSpec>\n  <driveSpec>   Drive letter followed by a colon (e.g. E:).\n"

/-- Line 89. -/
def no_access_text : String := "Unable to access the specified drive.\n"

/-- Line 116. -/
def unsupported_text : String := "Not a FAT32 or exFAT file system.\n"

/-- Line 129. -/
def read_failed_text : String := "Reading drive data failed.\n"

/-- Line 136. -/
def clean_text : String := "Drive is clean."

/-- Line 146. -/
def write_failed_text : String :=
  "Unable to clear the dirty bit.\nEnsure Windows Defender allows this app to make changes in controlled folders.\n"

/-- Line 154. -/
def cleared_text : String := "Dirty bit successfully cleared."

/-! ## The environment and the trace of a run -/

/-- One call out of `main`, with the value it returned. -/
inductive Event where
  /-- The call `fputs(text, stderr)`. -/
  | fputs_stderr (text : String)
  /-- The call `puts(text)`: the text and a newline on the standard stream. -/
  | puts (text : String)
  /-- The call `CreateFileW(path, ...)`; `ok` is `handle != INVALID_HANDLE_VALUE`. -/
  | CreateFileW (path : List Nat) (ok : Bool)
  /-- The call `DeviceIoControl(handle, FSCTL_LOCK_VOLUME, ...)`. -/
  | LockVolume (ok : Bool)
  /-- The call `GetVolumeInformationByHandleW(handle, ..., name.wcs, 8)`; `main` discards
  its result. -/
  | GetVolumeInformationByHandleW (ok : Bool)
  /-- The call `GetFileInformationByHandleEx(handle, FileStorageInfo, ...)`. -/
  | GetFileInformationByHandleEx (ok : Bool)
  /-- The call `ReadFile(handle, sectorBytes, n, ...)` with the file pointer at `pos`. -/
  | ReadFile (pos : Nat) (n : Nat) (ok : Bool)
  /-- The call `SetFilePointerEx(handle, offset, NULL, FILE_BEGIN)`. -/
  | SetFilePointerEx (offset : Nat) (ok : Bool)
  /-- The call `WriteFile(handle, sectorBytes, n, ...)` with the file pointer at `pos`;
  `data` are the `n` bytes at `sectorBytes`. -/
  | WriteFile (pos : Nat) (data : List Nat) (ok : Bool)
  /-- The call `DeviceIoControl(handle, FSCTL_DISMOUNT_VOLUME, ...)`; `main` discards its
  result. -/
  | DismountVolume (ok : Bool)
  /-- The call `CloseHandle(handle)`. -/
  | CloseHandle
  deriving DecidableEq, Repr

/-- What the operating system answers to the calls of one run.  `main` makes
each call at most once, so one answer per call describes every sequence of
answers. -/
structure Env where
  /-- Whether `CreateFileW` returned a valid handle. -/
  createFileOk : Bool
  /-- Whether `FSCTL_LOCK_VOLUME` succeeded. -/
  lockOk : Bool
  /-- The units `GetVolumeInformationByHandleW` stored to `name.wcs`; `none`
  when the call failed and stored nothing (comment of line 96). -/
  fsName : Option (List Nat)
  /-- The value of `PhysicalBytesPerSectorForAtomicity`; `none` when
  `GetFileInformationByHandleEx` failed. -/
  storageInfo : Option Nat
  /-- Whether `ReadFile` returned nonzero. -/
  readOk : Bool
  /-- The bytes `ReadFile` transferred; fewer than were asked for is a short read. -/
  readBytes : List Nat
  /-- Whether `SetFilePointerEx` returned nonzero. -/
  seekOk : Bool
  /-- Whether `WriteFile` returned nonzero. -/
  writeOk : Bool
  /-- Whether `FSCTL_DISMOUNT_VOLUME` succeeded. -/
  dismountOk : Bool

/-- What a run leaves behind. -/
structure Outcome where
  /-- The value `main` returns, the exit status of the process. -/
  status : Nat
  /-- The calls made, in program order. -/
  trace : List Event
  /-- The bytes in the 4096 bytes of `sectorBytes` when `main` returns. -/
  sectorBytes : Nat → Nat

/-! ## Pieces of `main` -/

/-- The memory of the uninitialised `uint8_t sectorBytes[4096]` (line 123):
whatever bytes the stack holds there. -/
def sector_uninit (stack : Nat → Nat) : Nat → Nat := fun i => to_u8 (stack i)

/-- The effect of `ReadFile(handle, sectorBytes, n, ...)` on `sectorBytes`:
the bytes transferred, at most `n` of them, are stored from index 0 on. -/
def read_into (buf : Nat → Nat) (n : Nat) (bytes : List Nat) : Nat → Nat :=
  fun i => if i < min n bytes.length then to_u8 (bytes.getD i 0) else buf i

/-- Line 141, `sectorBytes[dirtyByte] &= ~dirtyFlag`: both operands promote to
`int`, the result is stored as `uint8_t`. -/
def clear_flag (buf : Nat → Nat) (dirtyByte dirtyFlag : Nat) : Nat → Nat :=
  fun i => if i = dirtyByte then to_u8 (buf dirtyByte &&& int_not dirtyFlag) else buf i

/-- Lines 76-79: `name` after the argument check, `none` when the check fails.
`argc` is the length of `argv`; `argv[1]` is a NUL-terminated string, so an
index at or behind its end reads 0. -/
def drive_name (argv : List (List Nat)) : Option name_buf_t :=
  if argv.length < 2 then none
  else
    let arg := argv.getD 1 []
    let name := name_init.set_wcs 4 (promote_char (arg.getD 0 0) &&& 0xDF)
    if (name.at_wcs 4 + 2 ^ 32 - 65) % 2 ^ 32 > 25
        ∨ promote_char (arg.getD 1 0) ≠ 58
        ∨ promote_char (arg.getD 2 0) ≠ 0 then none
    else some name

/-- Line 96: `name` after `GetVolumeInformationByHandleW`. -/
def volume_name (name : name_buf_t) (fsName : Option (List Nat)) : name_buf_t :=
  match fsName with
  | some units => name.store units
  | none => name

/-- Lines 97-119: `(dirtyByte, dirtyFlag)`, `none` in the `else` branch. -/
def dirty_descriptor (name : name_buf_t) : Option (Nat × Nat) :=
  if name.i64 0 = fat32.i64 0 ∧ name.i32 2 = fat32.i32 2 then some (0x41, 0x01)
  else if name.i64 0 = exfat.i64 0 ∧ name.i32 2 = exfat.i32 2 then some (0x6A, 0x02)
  else none

/-- The function `main` (lines 74-157).  `argv` are the arguments (`argc` is
its length), `env` the answers of the operating system and `stack` the bytes
that the stack holds where `sectorBytes` is placed. -/
def main (argv : List (List Nat)) (env : Env) (stack : Nat → Nat) : Outcome :=
  match drive_name argv with
  | none => ⟨1, [.fputs_stderr usage_text], sector_uninit stack⟩
  | some name =>
  let t := [Event.CreateFileW name.wcsz env.createFileOk]
  if env.createFileOk = false then
    ⟨1, t ++ [.fputs_stderr no_access_text], sector_uninit stack⟩
  else
  -- the file pointer of the new handle
  let fp := 0
  let isLocked := env.lockOk
  let t := t ++ [.LockVolume isLocked, .GetVolumeInformationByHandleW env.fsName.isSome]
  let name := volume_name name env.fsName
  match dirty_descriptor name with
  | none => ⟨1, t ++ [.fputs_stderr unsupported_text, .CloseHandle], sector_uninit stack⟩
  | some (dirtyByte, dirtyFlag) =>
  let sectorBytes := sector_uninit stack
  match env.storageInfo with
  | none =>
    ⟨1, t ++ [.GetFileInformationByHandleEx false, .fputs_stderr read_failed_text, .CloseHandle],
      sectorBytes⟩
  | some size =>
  let t := t ++ [.GetFileInformationByHandleEx true]
  if size > 4096 then
    ⟨1, t ++ [.fputs_stderr read_failed_text, .CloseHandle], sectorBytes⟩
  else
  let t := t ++ [.ReadFile fp size env.readOk]
  let sectorBytes := read_into sectorBytes size env.readBytes
  let fp := fp + min size env.readBytes.length
  if env.readOk = false then
    ⟨1, t ++ [.fputs_stderr read_failed_text, .CloseHandle], sectorBytes⟩
  else
  if sectorBytes dirtyByte &&& dirtyFlag = 0 then
    ⟨0, t ++ [.puts clean_text, .CloseHandle], sectorBytes⟩
  else
  let sectorBytes := clear_flag sectorBytes dirtyByte dirtyFlag
  let t := t ++ [.SetFilePointerEx 0 env.seekOk]
  let fp := if env.seekOk = true then 0 else fp
  if env.seekOk = false then
    ⟨1, t ++ [.fputs_stderr write_failed_text, .CloseHandle], sectorBytes⟩
  else
  let t := t ++ [.WriteFile fp ((List.range size).map sectorBytes) env.writeOk]
  if env.writeOk = false then
    ⟨1, t ++ [.fputs_stderr write_failed_text, .CloseHandle], sectorBytes⟩
  else
  let t := if isLocked = true then t ++ [.DismountVolume env.dismountOk] else t
  ⟨0, t ++ [.puts cleared_text, .CloseHandle], sectorBytes⟩

/-! ## Vocabulary of the specification and concrete scenarios -/

/-- The UTF-16 units of a text (of characters below `0x10000`). -/
def utf16 (s : String) : List Nat := s.toList.map Char.toNat

/-- ASCII letters `A`-`Z` and `a`-`z`. -/
def is_letter (c : Nat) : Prop := (65 ≤ c ∧ c ≤ 90) ∨ (97 ≤ c ∧ c ≤ 122)

instance (c : Nat) : Decidable (is_letter c) := by unfold is_letter; infer_instance

/-- The uppercase form of an ASCII letter. -/
def upper (c : Nat) : Nat := if 97 ≤ c ∧ c ≤ 122 then c - 32 else c

/-- The device path `\\.\<letter>:`. -/
def device_path (letter : Nat) : List Nat := [92, 92, 46, 92, letter, 58]

/-- The eight units of `name` are all 16-bit values. -/
def name_buf_t.wf (b : name_buf_t) : Prop := b.wcs.length = 8 ∧ ∀ u ∈ b.wcs, u < 2 ^ 16

namespace Event

/-- The call is a `ReadFile`. -/
def is_read : Event → Bool
  | .ReadFile _ _ _ => true
  | _ => false

/-- The call is a `WriteFile`. -/
def is_write : Event → Bool
  | .WriteFile _ _ _ => true
  | _ => false

/-- The call is a `SetFilePointerEx`. -/
def is_seek : Event → Bool
  | .SetFilePointerEx _ _ => true
  | _ => false

/-- The call is the query of the sector size. -/
def is_size_query : Event → Bool
  | .GetFileInformationByHandleEx _ => true
  | _ => false

/-- The call requests the dismount of the volume. -/
def is_dismount : Event → Bool
  | .DismountVolume _ => true
  | _ => false

/-- The call opens a device. -/
def is_open : Event → Bool
  | .CreateFileW _ _ => true
  | _ => false

/-- The call writes a text to the error stream or the standard stream. -/
def is_output : Event → Bool
  | .fputs_stderr _ => true
  | .puts _ => true
  | _ => false

end Event

/-- The texts a run wrote, in order. -/
def outputs (t : List Event) : List Event := t.filter Event.is_output

/-- The outcome of a run that ends with the usage text. -/
def usage_outcome (stack : Nat → Nat) : Outcome :=
  ⟨1, [.fputs_stderr usage_text], sector_uninit stack⟩

/-- The calls every run makes once the device is open, up to the label query. -/
def opened_trace (name : name_buf_t) (env : Env) : List Event :=
  [.CreateFileW name.wcsz true, .LockVolume env.lockOk,
    .GetVolumeInformationByHandleW env.fsName.isSome]

/-- The buffer `sectorBytes` after the `ReadFile` of line 127 asked for `size` bytes. -/
def sector_read (env : Env) (stack : Nat → Nat) (size : Nat) : Nat → Nat :=
  read_into (sector_uninit stack) size env.readBytes

/-- The calls every run makes up to and including the `ReadFile`. -/
def read_trace (name : name_buf_t) (env : Env) (size : Nat) : List Event :=
  opened_trace name env ++ [.GetFileInformationByHandleEx true, .ReadFile 0 size env.readOk]

/-- A volume as the operating system presents it to a run: the units the
label query stores, the physical sector size, and the bytes by absolute
offset. -/
structure Device where
  fsName : List Nat
  sectorSize : Nat
  bytes : Nat → Nat

namespace Device

/-- The answers of a device on which every call succeeds (the lock attempt
apart, which is `lockOk`): a read at offset 0 transfers the whole sector. -/
def env (d : Device) (lockOk : Bool) : Env :=
  ⟨true, lockOk, some d.fsName, some d.sectorSize, true,
    (List.range d.sectorSize).map d.bytes, true, true, true⟩

/-- The device after `data` is written at offset `pos`. -/
def write (d : Device) (pos : Nat) (data : List Nat) : Device :=
  ⟨d.fsName, d.sectorSize,
    fun i => if pos ≤ i ∧ i < pos + data.length then data.getD (i - pos) 0 else d.bytes i⟩

/-- The device after the calls of a run: it stores what the successful writes wrote. -/
def after (d : Device) : List Event → Device
  | [] => d
  | .WriteFile pos data true :: t => (d.write pos data).after t
  | _ :: t => d.after t

end Device

/-- The first of two runs on a device. -/
def first_run (argv : List (List Nat)) (d : Device) (lockOk : Bool) (stack : Nat → Nat) :
    Outcome :=
  main argv (d.env lockOk) stack

/-- The second of two runs: it meets the device as the first run left it. -/
def second_run (argv : List (List Nat)) (d : Device) (lock1 : Bool) (stack1 : Nat → Nat)
    (lock2 : Bool) (stack2 : Nat → Nat) : Outcome :=
  main argv ((d.after (first_run argv d lock1 stack1).trace).env lock2) stack2

/-- The answers `env` with other outcomes of the lock attempt and of the dismount request. -/
def Env.with_lock (env : Env) (lockOk dismountOk : Bool) : Env :=
  ⟨env.createFileOk, lockOk, env.fsName, env.storageInfo, env.readOk, env.readBytes,
    env.seekOk, env.writeOk, dismountOk⟩

/-- A stack that holds zero bytes where `sectorBytes` is placed. -/
def zero_stack : Nat → Nat := fun _ => 0

/-- A stack that holds bytes of value 1 where `sectorBytes` is placed. -/
def ones_stack : Nat → Nat := fun _ => 1

/-- A sector of `size` bytes, all zero but the byte at `offset`, which is `value`. -/
def sector_with (size offset value : Nat) : List Nat :=
  (List.range size).map fun i => if i = offset then value else 0

/-- Answers of a FAT32 volume with 512-byte sectors whose byte `0x41` is
`0x01`; every call succeeds. -/
def dirty_fat32_env : Env :=
  ⟨true, true, some [70, 65, 84, 51, 50, 0], some 512, true, sector_with 512 0x41 0x01,
    true, true, true⟩

/-- The arguments `ClearFATDirtyBit.exe E:`. -/
def argv_E : List (List Nat) := [utf16 "ClearFATDirtyBit.exe", [69, 58]]

/-- The buffer `name` for the drive `E:`, the path `\\.\E:`. -/
def name_E : name_buf_t := ⟨[92, 92, 46, 92, 69, 58, 0, 0]⟩

/-- Answers of an open volume whose label query stores `units`; the other
calls succeed, the sector size is 512 and the sector is all zero. -/
def label_env (units : Option (List Nat)) : Env :=
  ⟨true, true, units, some 512, true, sector_with 512 0 0, true, true, true⟩

/-- Answers of an exFAT volume with 512-byte sectors whose byte `0x6A` is
`0x00`; every call succeeds. -/
def clean_exfat_env : Env :=
  ⟨true, true, some [101, 120, 70, 65, 84, 0], some 512, true, sector_with 512 0x6A 0x00,
    true, true, true⟩

/-- Answers of a FAT32 volume whose `ReadFile` reports success but transfers
only 16 of the 512 bytes asked for. -/
def short_read_env : Env :=
  ⟨true, true, some [70, 65, 84, 51, 50, 0], some 512, true, List.replicate 16 0,
    true, true, true⟩

/-- Answers of a FAT32 volume whose `ReadFile` fails. -/
def failed_read_env : Env :=
  ⟨true, true, some [70, 65, 84, 51, 50, 0], some 512, false, [], true, true, true⟩

/-- Answers of a dirty FAT32 volume with a physical sector size of 4096; every
call succeeds. -/
def page_sector_env : Env :=
  ⟨true, true, some [70, 65, 84, 51, 50, 0], some 4096, true, sector_with 4096 0x41 0x01,
    true, true, true⟩

/-- The calls of a run for `E:` that ends as unsupported; `queryOk` is what the
label query returned. -/
def unsupported_trace_E (queryOk : Bool) : List Event :=
  [.CreateFileW (device_path 69) true, .LockVolume true,
    .GetVolumeInformationByHandleW queryOk, .fputs_stderr unsupported_text, .CloseHandle]

/-- Answers of a FAT32 volume that reports a physical sector size of 8192. -/
def big_sector_env : Env :=
  ⟨true, true, some [70, 65, 84, 51, 50, 0], some 8192, true, [], true, true, true⟩

/-- Answers of a dirty FAT32 volume that cannot be locked; the write succeeds. -/
def unlocked_env : Env :=
  ⟨true, false, some [70, 65, 84, 51, 50, 0], some 512, true, sector_with 512 0x41 0x01,
    true, true, true⟩

/-- A FAT32 device with 512-byte sectors whose byte `0x41` is `0x01`. -/
def dirty_fat32_device : Device :=
  ⟨[70, 65, 84, 51, 50, 0], 512, fun i => if i = 0x41 then 0x01 else 0⟩

/-! ## Lemmas -/

theorem utf16_FAT32 : utf16 "FAT32" = [70, 65, 84, 51, 50] := by decide

theorem utf16_exFAT : utf16 "exFAT" = [101, 120, 70, 65, 84] := by decide

theorem letter_check : ∀ c, c < 256 →
    ((to_wchar (promote_char c &&& 0xDF) + 2 ^ 32 - 65) % 2 ^ 32 > 25 ↔ ¬ is_letter c) := by
  decide

theorem letter_upper : ∀ c, c < 256 → is_letter c →
    to_wchar (promote_char c &&& 0xDF) = upper c := by
  decide

theorem promote_char_eq : ∀ c, c < 256 →
    (promote_char c = 58 ↔ c = 58) ∧ (promote_char c = 0 ↔ c = 0) := by
  decide

theorem to_wchar_lt (v : Nat) : to_wchar v < 2 ^ 16 := Nat.mod_lt _ (by norm_num)

theorem to_u8_lt (v : Nat) : to_u8 v < 256 := Nat.mod_lt _ (by norm_num)

theorem lane64_eq_iff (a b c d a' b' c' d' : Nat)
    (ha : a < 2 ^ 16) (hb : b < 2 ^ 16) (hc : c < 2 ^ 16) (hd : d < 2 ^ 16)
    (ha' : a' < 2 ^ 16) (hb' : b' < 2 ^ 16) (hc' : c' < 2 ^ 16) (hd' : d' < 2 ^ 16) :
    as_signed 64 (a + b * 2 ^ 16 + c * 2 ^ 32 + d * 2 ^ 48)
      = as_signed 64 (a' + b' * 2 ^ 16 + c' * 2 ^ 32 + d' * 2 ^ 48)
    ↔ a = a' ∧ b = b' ∧ c = c' ∧ d = d' := by
  unfold as_signed
  constructor
  · intro h
    split_ifs at h <;> omega
  · rintro ⟨rfl, rfl, rfl, rfl⟩
    rfl

theorem lane32_eq_iff (a b a' b' : Nat)
    (ha : a < 2 ^ 16) (hb : b < 2 ^ 16) (ha' : a' < 2 ^ 16) (hb' : b' < 2 ^ 16) :
    as_signed 32 (a + b * 2 ^ 16) = as_signed 32 (a' + b' * 2 ^ 16) ↔ a = a' ∧ b = b' := by
  unfold as_signed
  constructor
  · intro h
    split_ifs at h <;> omega
  · rintro ⟨rfl, rfl⟩
    rfl

theorem wf_cases (b : name_buf_t) (h : b.wf) :
    ∃ u0 u1 u2 u3 u4 u5 u6 u7, b = ⟨[u0, u1, u2, u3, u4, u5, u6, u7]⟩ ∧
      u0 < 2 ^ 16 ∧ u1 < 2 ^ 16 ∧ u2 < 2 ^ 16 ∧ u3 < 2 ^ 16 ∧
      u4 < 2 ^ 16 ∧ u5 < 2 ^ 16 ∧ u6 < 2 ^ 16 ∧ u7 < 2 ^ 16 := by
  obtain ⟨l⟩ := b
  obtain ⟨hl, hu⟩ := h
  simp only at hl hu
  match l, hl, hu with
  | [u0, u1, u2, u3, u4, u5, u6, u7], _, hu =>
    refine ⟨u0, u1, u2, u3, u4, u5, u6, u7, rfl, ?_⟩
    simp at hu
    omega

theorem fat32_lanes_iff (u0 u1 u2 u3 u4 u5 u6 u7 : Nat)
    (h0 : u0 < 2 ^ 16) (h1 : u1 < 2 ^ 16) (h2 : u2 < 2 ^ 16) (h3 : u3 < 2 ^ 16)
    (h4 : u4 < 2 ^ 16) (h5 : u5 < 2 ^ 16) :
    ((⟨[u0, u1, u2, u3, u4, u5, u6, u7]⟩ : name_buf_t).i64 0 = fat32.i64 0 ∧
      (⟨[u0, u1, u2, u3, u4, u5, u6, u7]⟩ : name_buf_t).i32 2 = fat32.i32 2)
    ↔ (u0 = 70 ∧ u1 = 65 ∧ u2 = 84 ∧ u3 = 51 ∧ u4 = 50 ∧ u5 = 0) := by
  have e64 := lane64_eq_iff u0 u1 u2 u3 70 65 84 51 h0 h1 h2 h3
    (by norm_num) (by norm_num) (by norm_num) (by norm_num)
  have e32 := lane32_eq_iff u4 u5 50 0 h4 h5 (by norm_num) (by norm_num)
  simp only [name_buf_t.i64, name_buf_t.i32, name_buf_t.at_wcs, fat32, List.getD_cons_zero,
    List.getD_cons_succ, Nat.mul_zero, Nat.zero_add, Nat.reduceMul, Nat.reduceAdd]
  rw [e64, e32]
  tauto

theorem exfat_lanes_iff (u0 u1 u2 u3 u4 u5 u6 u7 : Nat)
    (h0 : u0 < 2 ^ 16) (h1 : u1 < 2 ^ 16) (h2 : u2 < 2 ^ 16) (h3 : u3 < 2 ^ 16)
    (h4 : u4 < 2 ^ 16) (h5 : u5 < 2 ^ 16) :
    ((⟨[u0, u1, u2, u3, u4, u5, u6, u7]⟩ : name_buf_t).i64 0 = exfat.i64 0 ∧
      (⟨[u0, u1, u2, u3, u4, u5, u6, u7]⟩ : name_buf_t).i32 2 = exfat.i32 2)
    ↔ (u0 = 101 ∧ u1 = 120 ∧ u2 = 70 ∧ u3 = 65 ∧ u4 = 84 ∧ u5 = 0) := by
  have e64 := lane64_eq_iff u0 u1 u2 u3 101 120 70 65 h0 h1 h2 h3
    (by norm_num) (by norm_num) (by norm_num) (by norm_num)
  have e32 := lane32_eq_iff u4 u5 84 0 h4 h5 (by norm_num) (by norm_num)
  simp only [name_buf_t.i64, name_buf_t.i32, name_buf_t.at_wcs, exfat, List.getD_cons_zero,
    List.getD_cons_succ, Nat.mul_zero, Nat.zero_add, Nat.reduceMul, Nat.reduceAdd]
  rw [e64, e32]
  tauto

theorem wcsz_eq_five (u0 u1 u2 u3 u4 u5 u6 u7 c0 c1 c2 c3 c4 : Nat)
    (n0 : c0 ≠ 0) (n1 : c1 ≠ 0) (n2 : c2 ≠ 0) (n3 : c3 ≠ 0) (n4 : c4 ≠ 0) :
    (⟨[u0, u1, u2, u3, u4, u5, u6, u7]⟩ : name_buf_t).wcsz = [c0, c1, c2, c3, c4]
    ↔ (u0 = c0 ∧ u1 = c1 ∧ u2 = c2 ∧ u3 = c3 ∧ u4 = c4 ∧ u5 = 0) := by
  constructor
  · intro h
    simp only [name_buf_t.wcsz, List.takeWhile_cons] at h
    by_cases z0 : u0 = 0
    · simp [z0] at h
    by_cases z1 : u1 = 0
    · simp [z0, z1] at h
    by_cases z2 : u2 = 0
    · simp [z0, z1, z2] at h
    by_cases z3 : u3 = 0
    · simp [z0, z1, z2, z3] at h
    by_cases z4 : u4 = 0
    · simp [z0, z1, z2, z3, z4] at h
    by_cases z5 : u5 = 0
    · simp [z0, z1, z2, z3, z4, z5] at h
      tauto
    · simp [z0, z1, z2, z3, z4, z5] at h
  · rintro ⟨rfl, rfl, rfl, rfl, rfl, rfl⟩
    simp [name_buf_t.wcsz, List.takeWhile_cons, n0, n1, n2, n3, n4]

/-- The lane comparisons of lines 102-103 and 108-109 on a well-formed buffer
are comparisons of the NUL-terminated string at `wcs`. -/
theorem dirty_descriptor_eq (b : name_buf_t) (h : b.wf) :
    dirty_descriptor b =
      if b.wcsz = utf16 "FAT32" then some (0x41, 0x01)
      else if b.wcsz = utf16 "exFAT" then some (0x6A, 0x02) else none := by
  obtain ⟨u0, u1, u2, u3, u4, u5, u6, u7, rfl, h0, h1, h2, h3, h4, h5, -, -⟩ := wf_cases b h
  unfold dirty_descriptor
  simp only [fat32_lanes_iff u0 u1 u2 u3 u4 u5 u6 u7 h0 h1 h2 h3 h4 h5,
    exfat_lanes_iff u0 u1 u2 u3 u4 u5 u6 u7 h0 h1 h2 h3 h4 h5, utf16_FAT32, utf16_exFAT,
    wcsz_eq_five u0 u1 u2 u3 u4 u5 u6 u7 70 65 84 51 50 (by norm_num) (by norm_num)
      (by norm_num) (by norm_num) (by norm_num),
    wcsz_eq_five u0 u1 u2 u3 u4 u5 u6 u7 101 120 70 65 84 (by norm_num) (by norm_num)
      (by norm_num) (by norm_num) (by norm_num)]

theorem range_eight : List.range 8 = [0, 1, 2, 3, 4, 5, 6, 7] := by decide

theorem store_wf (b : name_buf_t) (units : List Nat) (h : b.wf) : (b.store units).wf := by
  obtain ⟨u0, u1, u2, u3, u4, u5, u6, u7, rfl, h0, h1, h2, h3, h4, h5, h6, h7⟩ := wf_cases b h
  refine ⟨by simp [name_buf_t.store], ?_⟩
  intro u hu
  simp only [name_buf_t.store, range_eight, List.map_cons, List.map_nil, List.mem_cons,
    List.mem_nil_iff, or_false, name_buf_t.at_wcs, List.getD_cons_zero, List.getD_cons_succ] at hu
  rcases hu with rfl | rfl | rfl | rfl | rfl | rfl | rfl | rfl <;> split_ifs <;> first | apply to_wchar_lt | assumption

theorem volume_name_wf (b : name_buf_t) (fsName : Option (List Nat)) (h : b.wf) :
    (volume_name b fsName).wf := by
  cases fsName with
  | none => exact h
  | some units => exact store_wf b units h

/-- The value of `drive_name` on an argument vector with a first argument. -/
theorem drive_name_cons (prog s : List Nat) (rest : List (List Nat)) :
    drive_name (prog :: s :: rest) =
      if (to_wchar (promote_char (s.getD 0 0) &&& 0xDF) + 2 ^ 32 - 65) % 2 ^ 32 > 25
          ∨ promote_char (s.getD 1 0) ≠ 58 ∨ promote_char (s.getD 2 0) ≠ 0 then none
      else some ⟨[92, 92, 46, 92, to_wchar (promote_char (s.getD 0 0) &&& 0xDF), 58, 0, 0]⟩ := by
  simp [drive_name, name_init, name_buf_t.set_wcs, name_buf_t.at_wcs]

theorem drive_name_short (argv : List (List Nat)) (h : argv.length < 2) :
    drive_name argv = none := by
  simp [drive_name, h]

theorem drive_name_shape (argv : List (List Nat)) (name : name_buf_t)
    (h : drive_name argv = some name) :
    ∃ l, 65 ≤ l ∧ l ≤ 90 ∧ name = ⟨[92, 92, 46, 92, l, 58, 0, 0]⟩ := by
  match argv with
  | [] => simp [drive_name] at h
  | [_] => simp [drive_name] at h
  | prog :: s :: rest =>
    rw [drive_name_cons] at h
    split_ifs at h with hc
    simp only [Option.some.injEq] at h
    refine ⟨_, ?_, ?_, h.symm⟩
    · have := to_wchar_lt (promote_char (s.getD 0 0) &&& 0xDF)
      omega
    · have := to_wchar_lt (promote_char (s.getD 0 0) &&& 0xDF)
      omega

theorem drive_name_wf (argv : List (List Nat)) (name : name_buf_t)
    (h : drive_name argv = some name) : name.wf := by
  obtain ⟨l, h1, h2, rfl⟩ := drive_name_shape argv name h
  refine ⟨rfl, ?_⟩
  intro u hu
  simp at hu
  rcases hu with rfl | rfl | rfl | rfl | rfl | rfl <;> omega

theorem drive_name_wcsz (argv : List (List Nat)) (name : name_buf_t)
    (h : drive_name argv = some name) :
    ∃ l, 65 ≤ l ∧ l ≤ 90 ∧ name.wcsz = device_path l := by
  obtain ⟨l, h1, h2, rfl⟩ := drive_name_shape argv name h
  refine ⟨l, h1, h2, ?_⟩
  have : l ≠ 0 := by omega
  simp [name_buf_t.wcsz, List.takeWhile_cons, device_path, this]

theorem main_of_rejected (argv : List (List Nat)) (env : Env) (stack : Nat → Nat)
    (h : drive_name argv = none) : main argv env stack = usage_outcome stack := by
  simp [main, h, usage_outcome]

theorem main_trace_of_accepted (argv : List (List Nat)) (env : Env) (stack : Nat → Nat)
    (name : name_buf_t) (h : drive_name argv = some name) :
    ∃ t, (main argv env stack).trace = .CreateFileW name.wcsz env.createFileOk :: t := by
  unfold main
  simp only [h]
  repeat' split
  all_goals simp

theorem accepts_letter (l : Nat) (hl : is_letter l) :
    ¬ ((to_wchar (promote_char (([l, 58] : List Nat).getD 0 0) &&& 0xDF) + 2 ^ 32 - 65) % 2 ^ 32 > 25
        ∨ promote_char (([l, 58] : List Nat).getD 1 0) ≠ 58
        ∨ promote_char (([l, 58] : List Nat).getD 2 0) ≠ 0) := by
  have bl : l < 256 := by unfold is_letter at hl; omega
  simp only [List.getD_cons_zero, List.getD_cons_succ, List.getD_nil]
  rintro (h | h | h)
  · exact (letter_check l bl).1 h hl
  · exact h (by decide)
  · exact h (by decide)

theorem drive_name_accepts_iff (prog s : List Nat) (rest : List (List Nat))
    (hs : ∀ c ∈ s, 0 < c ∧ c < 256) :
    drive_name (prog :: s :: rest) ≠ none ↔ ∃ l, is_letter l ∧ s = [l, 58] := by
  rw [drive_name_cons]
  constructor
  · intro h
    split_ifs at h with hc
    · exact absurd rfl h
    have h0 : ¬ _ := fun x => hc (Or.inl x)
    have h1 : promote_char (s.getD 1 0) = 58 := by
      by_contra x
      exact hc (Or.inr (Or.inl x))
    have h2 : promote_char (s.getD 2 0) = 0 := by
      by_contra x
      exact hc (Or.inr (Or.inr x))
    match s, hs with
    | [], _ =>
      simp only [List.getD_nil] at h1
      exact absurd h1 (by decide)
    | [c0], _ =>
      simp only [List.getD_cons_succ, List.getD_nil] at h1
      exact absurd h1 (by decide)
    | [c0, c1], hs =>
      have b0 := (hs c0 (by simp)).2
      have b1 := (hs c1 (by simp)).2
      simp only [List.getD_cons_zero, List.getD_cons_succ] at h0 h1
      refine ⟨c0, ?_, ?_⟩
      · by_contra hl
        exact h0 ((letter_check c0 b0).2 hl)
      · rw [((promote_char_eq c1 b1).1).1 h1]
    | c0 :: c1 :: c2 :: r, hs =>
      have b2 := hs c2 (by simp)
      simp only [List.getD_cons_zero, List.getD_cons_succ] at h2
      have := ((promote_char_eq c2 b2.2).2).1 h2
      omega
  · rintro ⟨l, hl, rfl⟩
    rw [if_neg (accepts_letter l hl)]
    simp

theorem main_of_unsupported (argv : List (List Nat)) (env : Env) (stack : Nat → Nat)
    (name : name_buf_t) (hd : drive_name argv = some name) (ho : env.createFileOk = true)
    (hn : dirty_descriptor (volume_name name env.fsName) = none) :
    main argv env stack =
      ⟨1, opened_trace name env ++ [.fputs_stderr unsupported_text, .CloseHandle],
        sector_uninit stack⟩ := by
  simp [main, hd, ho, hn, opened_trace]

theorem device_path_ne (l : Nat) :
    device_path l ≠ utf16 "FAT32" ∧ device_path l ≠ utf16 "exFAT" := by
  simp [device_path, utf16_FAT32, utf16_exFAT]

theorem clear_bit0 : ∀ b, b < 256 → b &&& 1 ≠ 0 →
    to_u8 (b &&& int_not 1) = b - 1 ∧ to_u8 (b &&& int_not 1) &&& 1 = 0 ∧
    ∀ k, k < 8 → 2 ^ k ≠ 1 → (to_u8 (b &&& int_not 1)).testBit k = b.testBit k := by
  decide

theorem clear_bit1 : ∀ b, b < 256 → b &&& 2 ≠ 0 →
    to_u8 (b &&& int_not 2) = b - 2 ∧ to_u8 (b &&& int_not 2) &&& 2 = 0 ∧
    ∀ k, k < 8 → 2 ^ k ≠ 2 → (to_u8 (b &&& int_not 2)).testBit k = b.testBit k := by
  decide

theorem dirty_descriptor_cases (b : name_buf_t) (dirtyByte dirtyFlag : Nat)
    (h : dirty_descriptor b = some (dirtyByte, dirtyFlag)) :
    (dirtyByte = 0x41 ∧ dirtyFlag = 0x01) ∨ (dirtyByte = 0x6A ∧ dirtyFlag = 0x02) := by
  unfold dirty_descriptor at h
  split_ifs at h <;> simp_all

theorem sector_read_lt (env : Env) (stack : Nat → Nat) (size i : Nat) :
    sector_read env stack size i < 256 := by
  unfold sector_read read_into sector_uninit
  split_ifs <;> exact to_u8_lt _

theorem main_of_query_failed (argv : List (List Nat)) (env : Env) (stack : Nat → Nat)
    (name : name_buf_t) (dirtyByte dirtyFlag : Nat)
    (hd : drive_name argv = some name) (ho : env.createFileOk = true)
    (hdesc : dirty_descriptor (volume_name name env.fsName) = some (dirtyByte, dirtyFlag))
    (hs : env.storageInfo = none ∨ ∃ size, env.storageInfo = some size ∧ size > 4096) :
    main argv env stack =
      ⟨1, opened_trace name env ++ [.GetFileInformationByHandleEx env.storageInfo.isSome,
        .fputs_stderr read_failed_text, .CloseHandle], sector_uninit stack⟩ := by
  rcases hs with hs | ⟨size, hs, hsz⟩
  · simp [main, hd, ho, hdesc, hs, opened_trace]
  · simp [main, hd, ho, hdesc, hs, hsz, opened_trace]

theorem main_of_read_failed (argv : List (List Nat)) (env : Env) (stack : Nat → Nat)
    (name : name_buf_t) (dirtyByte dirtyFlag size : Nat)
    (hd : drive_name argv = some name) (ho : env.createFileOk = true)
    (hdesc : dirty_descriptor (volume_name name env.fsName) = some (dirtyByte, dirtyFlag))
    (hs : env.storageInfo = some size) (hsz : size ≤ 4096) (hr : env.readOk = false) :
    main argv env stack =
      ⟨1, read_trace name env size ++ [.fputs_stderr read_failed_text, .CloseHandle],
        sector_read env stack size⟩ := by
  have hsz' : ¬ size > 4096 := by omega
  simp [main, hd, ho, hdesc, hs, hsz', hr, opened_trace, read_trace, sector_read]

theorem main_of_clean (argv : List (List Nat)) (env : Env) (stack : Nat → Nat)
    (name : name_buf_t) (dirtyByte dirtyFlag size : Nat)
    (hd : drive_name argv = some name) (ho : env.createFileOk = true)
    (hdesc : dirty_descriptor (volume_name name env.fsName) = some (dirtyByte, dirtyFlag))
    (hs : env.storageInfo = some size) (hsz : size ≤ 4096) (hr : env.readOk = true)
    (hbit : sector_read env stack size dirtyByte &&& dirtyFlag = 0) :
    main argv env stack =
      ⟨0, read_trace name env size ++ [.puts clean_text, .CloseHandle],
        sector_read env stack size⟩ := by
  have hsz' : ¬ size > 4096 := by omega
  unfold sector_read at hbit
  simp [main, hd, ho, hdesc, hs, hsz', hr, hbit, opened_trace, read_trace, sector_read]

theorem main_of_dirty (argv : List (List Nat)) (env : Env) (stack : Nat → Nat)
    (name : name_buf_t) (dirtyByte dirtyFlag size : Nat)
    (hd : drive_name argv = some name) (ho : env.createFileOk = true)
    (hdesc : dirty_descriptor (volume_name name env.fsName) = some (dirtyByte, dirtyFlag))
    (hs : env.storageInfo = some size) (hsz : size ≤ 4096) (hr : env.readOk = true)
    (hbit : sector_read env stack size dirtyByte &&& dirtyFlag ≠ 0) :
    main argv env stack =
      ⟨if env.seekOk = true ∧ env.writeOk = true then 0 else 1,
        read_trace name env size ++ [.SetFilePointerEx 0 env.seekOk] ++
          (if env.seekOk = true then
            [.WriteFile 0 ((List.range size).map
              (clear_flag (sector_read env stack size) dirtyByte dirtyFlag)) env.writeOk] ++
            (if env.writeOk = true then
              (if env.lockOk = true then [.DismountVolume env.dismountOk] else []) ++
                [.puts cleared_text, .CloseHandle]
            else [.fputs_stderr write_failed_text, .CloseHandle])
          else [.fputs_stderr write_failed_text, .CloseHandle]),
        clear_flag (sector_read env stack size) dirtyByte dirtyFlag⟩ := by
  have hsz' : ¬ size > 4096 := by omega
  unfold sector_read at hbit
  cases hk : env.seekOk <;> cases hw : env.writeOk <;> cases hl : env.lockOk <;>
    simp [main, hd, ho, hdesc, hs, hsz', hr, hbit, hk, hw, hl, opened_trace, read_trace, sector_read]

theorem getD_map_range (f : Nat → Nat) (n i : Nat) (h : i < n) :
    ((List.range n).map f).getD i 0 = f i := by
  rw [List.getD_eq_getElem _ _ (by simpa using h)]
  simp

theorem main_of_no_access (argv : List (List Nat)) (env : Env) (stack : Nat → Nat)
    (name : name_buf_t) (hd : drive_name argv = some name) (ho : env.createFileOk = false) :
    main argv env stack =
      ⟨1, [.CreateFileW name.wcsz false, .fputs_stderr no_access_text], sector_uninit stack⟩ := by
  simp [main, hd, ho]

/-- Every run takes one of the seven ways through `main`. -/
theorem main_cases (argv : List (List Nat)) (env : Env) (stack : Nat → Nat) :
    (drive_name argv = none ∧ main argv env stack = usage_outcome stack) ∨
    (∃ name, drive_name argv = some name ∧ env.createFileOk = false ∧
      main argv env stack =
        ⟨1, [.CreateFileW name.wcsz false, .fputs_stderr no_access_text], sector_uninit stack⟩) ∨
    (∃ name, drive_name argv = some name ∧ env.createFileOk = true ∧
      dirty_descriptor (volume_name name env.fsName) = none ∧
      main argv env stack =
        ⟨1, opened_trace name env ++ [.fputs_stderr unsupported_text, .CloseHandle],
          sector_uninit stack⟩) ∨
    (∃ name dirtyByte dirtyFlag, drive_name argv = some name ∧ env.createFileOk = true ∧
      dirty_descriptor (volume_name name env.fsName) = some (dirtyByte, dirtyFlag) ∧
      (env.storageInfo = none ∨ ∃ size, env.storageInfo = some size ∧ size > 4096) ∧
      main argv env stack =
        ⟨1, opened_trace name env ++ [.GetFileInformationByHandleEx env.storageInfo.isSome,
          .fputs_stderr read_failed_text, .CloseHandle], sector_uninit stack⟩) ∨
    (∃ name dirtyByte dirtyFlag size, drive_name argv = some name ∧ env.createFileOk = true ∧
      dirty_descriptor (volume_name name env.fsName) = some (dirtyByte, dirtyFlag) ∧
      env.storageInfo = some size ∧ size ≤ 4096 ∧ env.readOk = false ∧
      main argv env stack =
        ⟨1, read_trace name env size ++ [.fputs_stderr read_failed_text, .CloseHandle],
          sector_read env stack size⟩) ∨
    (∃ name dirtyByte dirtyFlag size, drive_name argv = some name ∧ env.createFileOk = true ∧
      dirty_descriptor (volume_name name env.fsName) = some (dirtyByte, dirtyFlag) ∧
      env.storageInfo = some size ∧ size ≤ 4096 ∧ env.readOk = true ∧
      sector_read env stack size dirtyByte &&& dirtyFlag = 0 ∧
      main argv env stack =
        ⟨0, read_trace name env size ++ [.puts clean_text, .CloseHandle],
          sector_read env stack size⟩) ∨
    (∃ name dirtyByte dirtyFlag size, drive_name argv = some name ∧ env.createFileOk = true ∧
      dirty_descriptor (volume_name name env.fsName) = some (dirtyByte, dirtyFlag) ∧
      env.storageInfo = some size ∧ size ≤ 4096 ∧ env.readOk = true ∧
      sector_read env stack size dirtyByte &&& dirtyFlag ≠ 0 ∧
      main argv env stack =
        ⟨if env.seekOk = true ∧ env.writeOk = true then 0 else 1,
          read_trace name env size ++ [.SetFilePointerEx 0 env.seekOk] ++
            (if env.seekOk = true then
              [.WriteFile 0 ((List.range size).map
                (clear_flag (sector_read env stack size) dirtyByte dirtyFlag)) env.writeOk] ++
              (if env.writeOk = true then
                (if env.lockOk = true then [.DismountVolume env.dismountOk] else []) ++
                  [.puts cleared_text, .CloseHandle]
              else [.fputs_stderr write_failed_text, .CloseHandle])
            else [.fputs_stderr write_failed_text, .CloseHandle]),
          clear_flag (sector_read env stack size) dirtyByte dirtyFlag⟩) := by
  cases hd : drive_name argv with
  | none => exact Or.inl ⟨rfl, main_of_rejected argv env stack hd⟩
  | some name =>
    right
    cases ho : env.createFileOk with
    | false => exact Or.inl ⟨name, rfl, rfl, main_of_no_access argv env stack name hd ho⟩
    | true =>
      right
      cases hdesc : dirty_descriptor (volume_name name env.fsName) with
      | none => exact Or.inl ⟨name, rfl, rfl, hdesc, main_of_unsupported argv env stack name hd ho hdesc⟩
      | some desc =>
        obtain ⟨dirtyByte, dirtyFlag⟩ := desc
        right
        by_cases hq : env.storageInfo = none ∨ ∃ size, env.storageInfo = some size ∧ size > 4096
        · exact Or.inl ⟨name, dirtyByte, dirtyFlag, rfl, rfl, hdesc, hq,
            main_of_query_failed argv env stack name dirtyByte dirtyFlag hd ho hdesc hq⟩
        right
        cases hs : env.storageInfo with
        | none => exact absurd (Or.inl hs) hq
        | some size =>
          have hsz : size ≤ 4096 := by
            by_contra hc
            exact hq (Or.inr ⟨size, hs, by omega⟩)
          cases hr : env.readOk with
          | false =>
            exact Or.inl ⟨name, dirtyByte, dirtyFlag, size, rfl, rfl, hdesc, rfl, hsz, rfl,
              main_of_read_failed argv env stack name dirtyByte dirtyFlag size hd ho hdesc hs hsz hr⟩
          | true =>
            right
            by_cases hbit : sector_read env stack size dirtyByte &&& dirtyFlag = 0
            · exact Or.inl ⟨name, dirtyByte, dirtyFlag, size, rfl, rfl, hdesc, rfl, hsz, rfl, hbit,
                main_of_clean argv env stack name dirtyByte dirtyFlag size hd ho hdesc hs hsz hr hbit⟩
            · exact Or.inr ⟨name, dirtyByte, dirtyFlag, size, rfl, rfl, hdesc, rfl, hsz, rfl, hbit,
                main_of_dirty argv env stack name dirtyByte dirtyFlag size hd ho hdesc hs hsz hr hbit⟩

theorem to_u8_idem (v : Nat) : to_u8 (to_u8 v) = to_u8 v := by
  unfold to_u8
  exact Nat.mod_mod _ _

theorem sector_read_device (d : Device) (lockOk : Bool) (stack : Nat → Nat) (i : Nat)
    (h : i < d.sectorSize) :
    sector_read (d.env lockOk) stack d.sectorSize i = to_u8 (d.bytes i) := by
  simp [sector_read, read_into, Device.env, h, getD_map_range]

theorem first_run_eq (argv : List (List Nat)) (d : Device) (lockOk : Bool) (stack : Nat → Nat)
    (name : name_buf_t) (dirtyByte dirtyFlag : Nat)
    (hd : drive_name argv = some name)
    (hdesc : dirty_descriptor (volume_name name (some d.fsName)) = some (dirtyByte, dirtyFlag))
    (hsz : d.sectorSize ≤ 4096) (hcov : dirtyByte < d.sectorSize)
    (hbit : to_u8 (d.bytes dirtyByte) &&& dirtyFlag ≠ 0) :
    first_run argv d lockOk stack =
      ⟨0, read_trace name (d.env lockOk) d.sectorSize ++ [.SetFilePointerEx 0 true,
          .WriteFile 0 ((List.range d.sectorSize).map
            (clear_flag (sector_read (d.env lockOk) stack d.sectorSize) dirtyByte dirtyFlag)) true]
          ++ (if lockOk = true then [.DismountVolume true] else [])
          ++ [.puts cleared_text, .CloseHandle],
        clear_flag (sector_read (d.env lockOk) stack d.sectorSize) dirtyByte dirtyFlag⟩ := by
  have hb : sector_read (d.env lockOk) stack d.sectorSize dirtyByte &&& dirtyFlag ≠ 0 := by
    rw [sector_read_device d lockOk stack dirtyByte hcov]
    exact hbit
  unfold first_run
  rw [main_of_dirty argv (d.env lockOk) stack name dirtyByte dirtyFlag d.sectorSize hd rfl hdesc
    rfl hsz rfl hb]
  cases lockOk <;> simp [Device.env]

theorem after_first_run (argv : List (List Nat)) (d : Device) (lockOk : Bool) (stack : Nat → Nat)
    (name : name_buf_t) (dirtyByte dirtyFlag : Nat)
    (hd : drive_name argv = some name)
    (hdesc : dirty_descriptor (volume_name name (some d.fsName)) = some (dirtyByte, dirtyFlag))
    (hsz : d.sectorSize ≤ 4096) (hcov : dirtyByte < d.sectorSize)
    (hbit : to_u8 (d.bytes dirtyByte) &&& dirtyFlag ≠ 0) :
    d.after (first_run argv d lockOk stack).trace =
      d.write 0 ((List.range d.sectorSize).map
        (clear_flag (sector_read (d.env lockOk) stack d.sectorSize) dirtyByte dirtyFlag)) := by
  rw [first_run_eq argv d lockOk stack name dirtyByte dirtyFlag hd hdesc hsz hcov hbit]
  cases lockOk <;> simp [read_trace, opened_trace, Device.after]

/-! ## The claims of the specification -/

namespace Claims

/-- C1. In a run that read the sector (device open, supported label, sector
size at most 4096, `ReadFile` succeeded) and found the mask bit set in the byte
at the descriptor's offset, the buffer at the write-back is the buffer as read
except at that byte: there the value is the old value less the mask, the mask
bit is 0 and the other seven bits are unchanged; every other byte is unchanged;
the bytes a `WriteFile` is handed are the first `size` bytes of that buffer. -/
theorem clears_only_the_dirty_bit (argv : List (List Nat)) (env : Env) (stack : Nat → Nat)
    (name : name_buf_t) (dirtyByte dirtyFlag size : Nat)
    (hd : drive_name argv = some name) (ho : env.createFileOk = true)
    (hdesc : dirty_descriptor (volume_name name env.fsName) = some (dirtyByte, dirtyFlag))
    (hs : env.storageInfo = some size) (hsz : size ≤ 4096) (hr : env.readOk = true)
    (hbit : sector_read env stack size dirtyByte &&& dirtyFlag ≠ 0) :
    (main argv env stack).sectorBytes dirtyByte
        = sector_read env stack size dirtyByte - dirtyFlag ∧
    (main argv env stack).sectorBytes dirtyByte &&& dirtyFlag = 0 ∧
    (∀ k, k < 8 → 2 ^ k ≠ dirtyFlag →
        ((main argv env stack).sectorBytes dirtyByte).testBit k
          = (sector_read env stack size dirtyByte).testBit k) ∧
    (∀ i, i ≠ dirtyByte → (main argv env stack).sectorBytes i = sector_read env stack size i) ∧
    (∀ pos data ok, Event.WriteFile pos data ok ∈ (main argv env stack).trace →
        data = (List.range size).map (main argv env stack).sectorBytes) ∧
    (env.seekOk = true →
        Event.WriteFile 0 ((List.range size).map (main argv env stack).sectorBytes) env.writeOk
          ∈ (main argv env stack).trace) := by
  have hm := main_of_dirty argv env stack name dirtyByte dirtyFlag size hd ho hdesc hs hsz hr hbit
  have hlt := sector_read_lt env stack size dirtyByte
  have hb : (main argv env stack).sectorBytes
      = clear_flag (sector_read env stack size) dirtyByte dirtyFlag := by rw [hm]
  have hbyte : to_u8 (sector_read env stack size dirtyByte &&& int_not dirtyFlag)
        = sector_read env stack size dirtyByte - dirtyFlag ∧
      to_u8 (sector_read env stack size dirtyByte &&& int_not dirtyFlag) &&& dirtyFlag = 0 ∧
      ∀ k, k < 8 → 2 ^ k ≠ dirtyFlag →
        (to_u8 (sector_read env stack size dirtyByte &&& int_not dirtyFlag)).testBit k
          = (sector_read env stack size dirtyByte).testBit k := by
    rcases dirty_descriptor_cases _ _ _ hdesc with ⟨-, rfl⟩ | ⟨-, rfl⟩
    · exact clear_bit0 _ hlt hbit
    · exact clear_bit1 _ hlt hbit
  refine ⟨?_, ?_, ?_, ?_, ?_, ?_⟩
  · rw [hb]
    simpa [clear_flag] using hbyte.1
  · rw [hb]
    simpa [clear_flag] using hbyte.2.1
  · rw [hb]
    simpa [clear_flag] using hbyte.2.2
  · intro i hi
    rw [hb]
    simp [clear_flag, hi]
  · intro pos data ok hmem
    rw [hb]
    rw [hm] at hmem
    cases hk : env.seekOk <;> cases hw : env.writeOk <;> cases hl : env.lockOk <;>
      simp [hk, hw, hl, read_trace, opened_trace] at hmem <;> exact hmem.2.1
  · intro hk
    rw [hb, hm]
    simp [hk]

/-- C1 on a FAT32 volume with 512-byte sectors whose byte `0x41` is `0x01`:
the byte becomes `0x00` and the other bytes stay as read. -/
theorem clears_only_the_dirty_bit_witness :
    drive_name argv_E = some name_E ∧
    dirty_descriptor (volume_name name_E dirty_fat32_env.fsName) = some (0x41, 0x01) ∧
    sector_read dirty_fat32_env zero_stack 512 0x41 = 0x01 ∧
    (main argv_E dirty_fat32_env zero_stack).sectorBytes 0x41 = 0x00 ∧
    (main argv_E dirty_fat32_env zero_stack).status = 0 ∧
    outputs (main argv_E dirty_fat32_env zero_stack).trace = [.puts cleared_text] ∧
    (∀ i, i ≠ 0x41 → (main argv_E dirty_fat32_env zero_stack).sectorBytes i
        = sector_read dirty_fat32_env zero_stack 512 i) :=
  ⟨by decide, by decide, by decide, by decide, by decide, by decide,
    (clears_only_the_dirty_bit argv_E dirty_fat32_env zero_stack name_E 0x41 0x01 512
      (by decide) rfl (by decide) rfl (by decide) rfl (by decide)).2.2.2.1⟩

/-- C2. With `name` the buffer that holds the device path and `fsName` what
the label query stored, the descriptor chosen by lines 102-119 is byte `0x41`
with mask `0x01` exactly when the NUL-terminated string in the buffer is
`FAT32`, byte `0x6A` with mask `0x02` exactly when it is `exFAT`, and none (the
`else` branch) exactly when it is neither.  The two lane comparisons of each
branch (`i64[0]` and `i32[2]`) hold exactly for these strings, and the units
`wcs[6]` and `wcs[7]` have no influence on the choice. -/
theorem descriptor_selection (argv : List (List Nat)) (name : name_buf_t)
    (fsName : Option (List Nat)) (hd : drive_name argv = some name) :
    (dirty_descriptor (volume_name name fsName) = some (0x41, 0x01)
        ↔ (volume_name name fsName).wcsz = utf16 "FAT32") ∧
    (dirty_descriptor (volume_name name fsName) = some (0x6A, 0x02)
        ↔ (volume_name name fsName).wcsz = utf16 "exFAT") ∧
    (dirty_descriptor (volume_name name fsName) = none
        ↔ ((volume_name name fsName).wcsz ≠ utf16 "FAT32" ∧
            (volume_name name fsName).wcsz ≠ utf16 "exFAT")) ∧
    (((volume_name name fsName).i64 0 = fat32.i64 0 ∧ (volume_name name fsName).i32 2 = fat32.i32 2)
        ↔ (volume_name name fsName).wcsz = utf16 "FAT32") ∧
    (((volume_name name fsName).i64 0 = exfat.i64 0 ∧ (volume_name name fsName).i32 2 = exfat.i32 2)
        ↔ (volume_name name fsName).wcsz = utf16 "exFAT") ∧
    (∀ x y, dirty_descriptor (((volume_name name fsName).set_wcs 6 x).set_wcs 7 y)
        = dirty_descriptor (volume_name name fsName)) := by
  have hw := volume_name_wf name fsName (drive_name_wf argv name hd)
  obtain ⟨u0, u1, u2, u3, u4, u5, u6, u7, hb, h0, h1, h2, h3, h4, h5, h6, h7⟩ := wf_cases _ hw
  have hdd := dirty_descriptor_eq _ hw
  have hne : utf16 "exFAT" ≠ utf16 "FAT32" := by
    rw [utf16_FAT32, utf16_exFAT]
    decide
  refine ⟨?_, ?_, ?_, ?_, ?_, ?_⟩
  · rw [hdd]
    constructor
    · intro h
      by_contra hc
      rw [if_neg hc] at h
      split_ifs at h
      exact absurd h (by decide)
    · intro h
      rw [if_pos h]
  · rw [hdd]
    constructor
    · intro h
      by_contra hc
      rw [if_neg hc] at h
      split_ifs at h
      exact absurd h (by decide)
    · intro h
      have : (volume_name name fsName).wcsz ≠ utf16 "FAT32" := by
        rw [h]
        exact hne
      rw [if_neg this, if_pos h]
  · rw [hdd]
    constructor
    · intro h
      constructor
      · intro hc
        rw [if_pos hc] at h
        exact absurd h (by decide)
      · intro hc
        have : (volume_name name fsName).wcsz ≠ utf16 "FAT32" := by
          rw [hc]
          exact hne
        rw [if_neg this, if_pos hc] at h
        exact absurd h (by decide)
    · rintro ⟨n1, n2⟩
      rw [if_neg n1, if_neg n2]
  · rw [hb, utf16_FAT32, fat32_lanes_iff u0 u1 u2 u3 u4 u5 u6 u7 h0 h1 h2 h3 h4 h5,
      wcsz_eq_five u0 u1 u2 u3 u4 u5 u6 u7 70 65 84 51 50 (by norm_num) (by norm_num)
        (by norm_num) (by norm_num) (by norm_num)]
  · rw [hb, utf16_exFAT, exfat_lanes_iff u0 u1 u2 u3 u4 u5 u6 u7 h0 h1 h2 h3 h4 h5,
      wcsz_eq_five u0 u1 u2 u3 u4 u5 u6 u7 101 120 70 65 84 (by norm_num) (by norm_num)
        (by norm_num) (by norm_num) (by norm_num)]
  · intro x y
    rw [hb]
    simp only [name_buf_t.set_wcs, List.set_cons_succ, List.set_cons_zero, dirty_descriptor]
    simp only [fat32_lanes_iff u0 u1 u2 u3 u4 u5 _ _ h0 h1 h2 h3 h4 h5,
      exfat_lanes_iff u0 u1 u2 u3 u4 u5 _ _ h0 h1 h2 h3 h4 h5]

/-- C2 at the argument `E:`: the label `FAT32` gives `0x41`/`0x01`, the label
`exFAT` with other units behind its NUL gives `0x6A`/`0x02`, and the labels
`NTFS`, `exFATX` and `FAT3` give no descriptor. -/
theorem descriptor_selection_witness :
    drive_name argv_E = some name_E ∧
    dirty_descriptor (volume_name name_E (some (utf16 "FAT32" ++ [0]))) = some (0x41, 0x01) ∧
    dirty_descriptor (volume_name name_E (some (utf16 "exFAT" ++ [0, 7, 9]))) = some (0x6A, 0x02) ∧
    dirty_descriptor (volume_name name_E (some (utf16 "NTFS" ++ [0]))) = none ∧
    dirty_descriptor (volume_name name_E (some (utf16 "exFATX" ++ [0]))) = none ∧
    dirty_descriptor (volume_name name_E (some (utf16 "FAT3" ++ [0]))) = none :=
  ⟨by decide,
    (descriptor_selection argv_E name_E (some (utf16 "FAT32" ++ [0])) (by decide)).1.2
      (by decide),
    (descriptor_selection argv_E name_E (some (utf16 "exFAT" ++ [0, 7, 9])) (by decide)).2.1.2
      (by decide),
    (descriptor_selection argv_E name_E (some (utf16 "NTFS" ++ [0])) (by decide)).2.2.1.2
      ⟨by decide, by decide⟩,
    (descriptor_selection argv_E name_E (some (utf16 "exFATX" ++ [0])) (by decide)).2.2.1.2
      ⟨by decide, by decide⟩,
    (descriptor_selection argv_E name_E (some (utf16 "FAT3" ++ [0])) (by decide)).2.2.1.2
      ⟨by decide, by decide⟩⟩

/-- C3. When the device is open and the NUL-terminated string in the label
buffer is neither `FAT32` nor `exFAT`, as it is whenever the label query fails
and the buffer still holds the device path, the run writes
"Not a FAT32 or exFAT file system." to the error stream, closes the handle and
returns 1; it makes no sector-size query, no read and no write. -/
theorem unsupported_label (argv : List (List Nat)) (env : Env) (stack : Nat → Nat)
    (name : name_buf_t) (hd : drive_name argv = some name) (ho : env.createFileOk = true)
    (hl : env.fsName = none ∨
      ((volume_name name env.fsName).wcsz ≠ utf16 "FAT32" ∧
        (volume_name name env.fsName).wcsz ≠ utf16 "exFAT")) :
    main argv env stack =
      ⟨1, [.CreateFileW name.wcsz true, .LockVolume env.lockOk,
            .GetVolumeInformationByHandleW env.fsName.isSome,
            .fputs_stderr unsupported_text, .CloseHandle], sector_uninit stack⟩ ∧
    (∀ e ∈ (main argv env stack).trace,
        e.is_size_query = false ∧ e.is_read = false ∧ e.is_write = false) := by
  have hw := volume_name_wf name env.fsName (drive_name_wf argv name hd)
  have hne : (volume_name name env.fsName).wcsz ≠ utf16 "FAT32" ∧
      (volume_name name env.fsName).wcsz ≠ utf16 "exFAT" := by
    rcases hl with hl | hl
    · obtain ⟨l, -, -, hp⟩ := drive_name_wcsz argv name hd
      rw [hl]
      simp only [volume_name, hp]
      exact device_path_ne l
    · exact hl
  have hn : dirty_descriptor (volume_name name env.fsName) = none := by
    rw [dirty_descriptor_eq _ hw, if_neg hne.1, if_neg hne.2]
  have hm := main_of_unsupported argv env stack name hd ho hn
  refine ⟨by simpa [opened_trace] using hm, ?_⟩
  rw [hm]
  simp [opened_trace, Event.is_size_query, Event.is_read, Event.is_write]

/-- C3 for the drive `E:` and the labels `NTFS`, the empty label, `FAT3`,
`FAT32X`, `fat32` and `EXFAT`, and for a label query that fails. -/
theorem unsupported_label_witness :
    drive_name argv_E = some name_E ∧
    (volume_name name_E (some (utf16 "NTFS" ++ [0]))).wcsz = utf16 "NTFS" ∧
    (main argv_E (label_env (some (utf16 "NTFS" ++ [0]))) zero_stack).status = 1 ∧
    (main argv_E (label_env (some (utf16 "NTFS" ++ [0]))) zero_stack).trace
      = unsupported_trace_E true ∧
    (main argv_E (label_env (some [0])) zero_stack).trace = unsupported_trace_E true ∧
    (main argv_E (label_env (some (utf16 "FAT3" ++ [0]))) zero_stack).trace
      = unsupported_trace_E true ∧
    (main argv_E (label_env (some (utf16 "FAT32X" ++ [0]))) zero_stack).trace
      = unsupported_trace_E true ∧
    (main argv_E (label_env (some (utf16 "fat32" ++ [0]))) zero_stack).trace
      = unsupported_trace_E true ∧
    (main argv_E (label_env (some (utf16 "EXFAT" ++ [0]))) zero_stack).trace
      = unsupported_trace_E true ∧
    (main argv_E (label_env none) zero_stack).trace = unsupported_trace_E false :=
  ⟨by decide, by decide,
    congrArg Outcome.status (unsupported_label argv_E (label_env (some (utf16 "NTFS" ++ [0])))
      zero_stack name_E (by decide) rfl (Or.inr (by decide))).1,
    congrArg Outcome.trace (unsupported_label argv_E (label_env (some (utf16 "NTFS" ++ [0])))
      zero_stack name_E (by decide) rfl (Or.inr (by decide))).1,
    congrArg Outcome.trace (unsupported_label argv_E (label_env (some [0]))
      zero_stack name_E (by decide) rfl (Or.inr (by decide))).1,
    congrArg Outcome.trace (unsupported_label argv_E (label_env (some (utf16 "FAT3" ++ [0])))
      zero_stack name_E (by decide) rfl (Or.inr (by decide))).1,
    congrArg Outcome.trace (unsupported_label argv_E (label_env (some (utf16 "FAT32X" ++ [0])))
      zero_stack name_E (by decide) rfl (Or.inr (by decide))).1,
    congrArg Outcome.trace (unsupported_label argv_E (label_env (some (utf16 "fat32" ++ [0])))
      zero_stack name_E (by decide) rfl (Or.inr (by decide))).1,
    congrArg Outcome.trace (unsupported_label argv_E (label_env (some (utf16 "EXFAT" ++ [0])))
      zero_stack name_E (by decide) rfl (Or.inr (by decide))).1,
    congrArg Outcome.trace (unsupported_label argv_E (label_env none)
      zero_stack name_E (by decide) rfl (Or.inl rfl)).1⟩

/-- C4. In a run that read the sector and found the mask bit already 0, the
buffer stays as read, the calls made are the ones up to the `ReadFile`, then
`puts("Drive is clean.")` and `CloseHandle`: no `SetFilePointerEx`, no
`WriteFile`, no dismount; the status is 0. -/
theorem clean_drive_is_left_alone (argv : List (List Nat)) (env : Env) (stack : Nat → Nat)
    (name : name_buf_t) (dirtyByte dirtyFlag size : Nat)
    (hd : drive_name argv = some name) (ho : env.createFileOk = true)
    (hdesc : dirty_descriptor (volume_name name env.fsName) = some (dirtyByte, dirtyFlag))
    (hs : env.storageInfo = some size) (hsz : size ≤ 4096) (hr : env.readOk = true)
    (hbit : sector_read env stack size dirtyByte &&& dirtyFlag = 0) :
    main argv env stack =
      ⟨0, [.CreateFileW name.wcsz true, .LockVolume env.lockOk,
            .GetVolumeInformationByHandleW env.fsName.isSome,
            .GetFileInformationByHandleEx true, .ReadFile 0 size true,
            .puts clean_text, .CloseHandle], sector_read env stack size⟩ ∧
    (∀ e ∈ (main argv env stack).trace,
        e.is_seek = false ∧ e.is_write = false ∧ e.is_dismount = false) ∧
    outputs (main argv env stack).trace = [.puts clean_text] := by
  have hm := main_of_clean argv env stack name dirtyByte dirtyFlag size hd ho hdesc hs hsz hr hbit
  rw [hm]
  simp [read_trace, opened_trace, hr, outputs, Event.is_seek, Event.is_write, Event.is_dismount,
    Event.is_output]

/-- C4 on an exFAT volume with 512-byte sectors whose byte `0x6A` is `0x00`. -/
theorem clean_drive_is_left_alone_witness :
    drive_name argv_E = some name_E ∧
    dirty_descriptor (volume_name name_E clean_exfat_env.fsName) = some (0x6A, 0x02) ∧
    sector_read clean_exfat_env zero_stack 512 0x6A &&& 0x02 = 0 ∧
    (main argv_E clean_exfat_env zero_stack).status = 0 ∧
    (∀ e ∈ (main argv_E clean_exfat_env zero_stack).trace,
        e.is_seek = false ∧ e.is_write = false ∧ e.is_dismount = false) ∧
    outputs (main argv_E clean_exfat_env zero_stack).trace = [.puts clean_text] :=
  ⟨by decide, by decide, by decide,
    congrArg Outcome.status (clean_drive_is_left_alone argv_E clean_exfat_env zero_stack name_E
      0x6A 0x02 512 (by decide) rfl (by decide) rfl (by decide) rfl (by decide)).1,
    (clean_drive_is_left_alone argv_E clean_exfat_env zero_stack name_E
      0x6A 0x02 512 (by decide) rfl (by decide) rfl (by decide) rfl (by decide)).2⟩

/-- C5. In every run there is at most one `ReadFile` and at most one
`WriteFile`; each is made with the file pointer at 0 and for exactly the
number of bytes the sector-size query returned; and a `WriteFile` is made only
in a run whose calls begin with the open, the lock attempt, the label query, a
successful sector-size query, a successful `ReadFile` and a successful
`SetFilePointerEx` to 0, after the mask bit was found set in the buffer read. -/
theorem one_sector_read_one_written (argv : List (List Nat)) (env : Env) (stack : Nat → Nat) :
    ((main argv env stack).trace.filter Event.is_read).length ≤ 1 ∧
    ((main argv env stack).trace.filter Event.is_write).length ≤ 1 ∧
    (∀ pos n ok, Event.ReadFile pos n ok ∈ (main argv env stack).trace →
        pos = 0 ∧ env.storageInfo = some n) ∧
    (∀ pos data ok, Event.WriteFile pos data ok ∈ (main argv env stack).trace →
        pos = 0 ∧ env.storageInfo = some data.length ∧
        ∃ name dirtyByte dirtyFlag post,
          drive_name argv = some name ∧
          dirty_descriptor (volume_name name env.fsName) = some (dirtyByte, dirtyFlag) ∧
          sector_read env stack data.length dirtyByte &&& dirtyFlag ≠ 0 ∧
          (main argv env stack).trace =
            [.CreateFileW name.wcsz true, .LockVolume env.lockOk,
              .GetVolumeInformationByHandleW env.fsName.isSome,
              .GetFileInformationByHandleEx true, .ReadFile 0 data.length true,
              .SetFilePointerEx 0 true, .WriteFile 0 data ok] ++ post) := by
  rcases main_cases argv env stack with
    ⟨-, hm⟩ | ⟨name, -, -, hm⟩ | ⟨name, -, -, -, hm⟩ | ⟨name, b, f, -, -, -, -, hm⟩ |
    ⟨name, b, f, size, -, -, -, hs, -, hr, hm⟩ | ⟨name, b, f, size, -, -, -, hs, -, hr, -, hm⟩ |
    ⟨name, b, f, size, hd, -, hdesc, hs, -, hr, hbit, hm⟩
  · rw [hm]
    simp [usage_outcome, Event.is_read, Event.is_write]
  · rw [hm]
    simp [Event.is_read, Event.is_write]
  · rw [hm]
    simp [opened_trace, Event.is_read, Event.is_write]
  · rw [hm]
    simp [opened_trace, Event.is_read, Event.is_write]
  · rw [hm]
    simp [opened_trace, read_trace, Event.is_read, Event.is_write, hs, hr]
  · rw [hm]
    simp [opened_trace, read_trace, Event.is_read, Event.is_write, hs, hr]
  · rw [hm]
    cases hk : env.seekOk <;> cases hw : env.writeOk <;> cases hl : env.lockOk <;>
      simp [opened_trace, read_trace, Event.is_read, Event.is_write, hs, hr, hd, hdesc, hbit,
        List.filter_cons]
    all_goals exact ⟨b, f, ⟨rfl, rfl⟩, hbit, hl⟩

/-- C5 on a dirty FAT32 volume with 512-byte sectors: the run makes exactly one
read and one write. -/
theorem one_sector_read_one_written_witness :
    ((main [[], [69, 58]] dirty_fat32_env zero_stack).trace.filter Event.is_read).length = 1 ∧
    ((main [[], [69, 58]] dirty_fat32_env zero_stack).trace.filter Event.is_write).length = 1 ∧
    ((main [[], [69, 58]] dirty_fat32_env zero_stack).trace.filter Event.is_read).length ≤ 1 :=
  ⟨by decide, by decide, (one_sector_read_one_written _ _ _).1⟩

/-- C6 fails as stated. A `ReadFile` that reports success and transfers 16 of
the 512 bytes asked for is not noticed: with stale bytes of value 1 in the rest
of `sectorBytes` the run finds the mask bit set, makes the `WriteFile`, writes
"Dirty bit successfully cleared." and returns 0; with stale bytes of value 0 it
writes "Drive is clean." and returns 0. -/
theorem short_read_goes_unnoticed :
    short_read_env.storageInfo = some 512 ∧ short_read_env.readBytes.length = 16 ∧
    short_read_env.readOk = true ∧
    (main argv_E short_read_env ones_stack).status = 0 ∧
    outputs (main argv_E short_read_env ones_stack).trace = [.puts cleared_text] ∧
    (∃ e ∈ (main argv_E short_read_env ones_stack).trace, e.is_write = true) ∧
    (main argv_E short_read_env zero_stack).status = 0 ∧
    outputs (main argv_E short_read_env zero_stack).trace = [.puts clean_text] ∧
    ¬ ((main argv_E short_read_env ones_stack).status = 1 ∧
        outputs (main argv_E short_read_env ones_stack).trace = [.fputs_stderr read_failed_text] ∧
        ∀ e ∈ (main argv_E short_read_env ones_stack).trace, e.is_write = false) := by
  decide

/-- C6, as amended. In a run that reaches the `ReadFile`: when the call
reports failure, the run writes "Reading drive data failed." to the error
stream, returns 1 and makes no `WriteFile`; when the call reports success, that
text is not written, however many bytes were transferred. -/
theorem failed_read_is_reported (argv : List (List Nat)) (env : Env) (stack : Nat → Nat)
    (name : name_buf_t) (dirtyByte dirtyFlag size : Nat)
    (hd : drive_name argv = some name) (ho : env.createFileOk = true)
    (hdesc : dirty_descriptor (volume_name name env.fsName) = some (dirtyByte, dirtyFlag))
    (hs : env.storageInfo = some size) (hsz : size ≤ 4096) :
    (env.readOk = false →
        main argv env stack =
          ⟨1, [.CreateFileW name.wcsz true, .LockVolume env.lockOk,
                .GetVolumeInformationByHandleW env.fsName.isSome,
                .GetFileInformationByHandleEx true, .ReadFile 0 size false,
                .fputs_stderr read_failed_text, .CloseHandle], sector_read env stack size⟩ ∧
        ∀ e ∈ (main argv env stack).trace, e.is_write = false) ∧
    (env.readOk = true →
        Event.fputs_stderr read_failed_text ∉ (main argv env stack).trace) := by
  constructor
  · intro hr
    rw [main_of_read_failed argv env stack name dirtyByte dirtyFlag size hd ho hdesc hs hsz hr]
    simp [read_trace, opened_trace, hr, Event.is_write]
  · intro hr
    by_cases hbit : sector_read env stack size dirtyByte &&& dirtyFlag = 0
    · rw [main_of_clean argv env stack name dirtyByte dirtyFlag size hd ho hdesc hs hsz hr hbit]
      simp [read_trace, opened_trace]
    · rw [main_of_dirty argv env stack name dirtyByte dirtyFlag size hd ho hdesc hs hsz hr hbit]
      cases hk : env.seekOk <;> cases hw : env.writeOk <;> cases hl : env.lockOk <;>
        simp [read_trace, opened_trace, read_failed_text, write_failed_text]

/-- C6 as amended, on a FAT32 volume whose `ReadFile` fails. -/
theorem failed_read_is_reported_witness :
    drive_name argv_E = some name_E ∧
    dirty_descriptor (volume_name name_E failed_read_env.fsName) = some (0x41, 0x01) ∧
    failed_read_env.readOk = false ∧
    (main argv_E failed_read_env zero_stack).status = 1 ∧
    outputs (main argv_E failed_read_env zero_stack).trace = [.fputs_stderr read_failed_text] ∧
    (∀ e ∈ (main argv_E failed_read_env zero_stack).trace, e.is_write = false) :=
  ⟨by decide, by decide, rfl, by decide, by decide,
    ((failed_read_is_reported argv_E failed_read_env zero_stack name_E 0x41 0x01 512
      (by decide) rfl (by decide) rfl (by decide)).1 rfl).2⟩

/-- C7. On a supported volume, when the sector-size query fails or returns a
size above 4096, the run writes "Reading drive data failed." to the error
stream and returns 1 without a `ReadFile` or a `WriteFile`; when the query
returns exactly 4096, the `ReadFile` of 4096 bytes is made. -/
theorem oversized_sector_is_not_read (argv : List (List Nat)) (env : Env) (stack : Nat → Nat)
    (name : name_buf_t) (dirtyByte dirtyFlag : Nat)
    (hd : drive_name argv = some name) (ho : env.createFileOk = true)
    (hdesc : dirty_descriptor (volume_name name env.fsName) = some (dirtyByte, dirtyFlag)) :
    ((env.storageInfo = none ∨ ∃ size, env.storageInfo = some size ∧ size > 4096) →
        main argv env stack =
          ⟨1, [.CreateFileW name.wcsz true, .LockVolume env.lockOk,
                .GetVolumeInformationByHandleW env.fsName.isSome,
                .GetFileInformationByHandleEx env.storageInfo.isSome,
                .fputs_stderr read_failed_text, .CloseHandle], sector_uninit stack⟩ ∧
        ∀ e ∈ (main argv env stack).trace, e.is_read = false ∧ e.is_write = false) ∧
    (env.storageInfo = some 4096 →
        Event.ReadFile 0 4096 env.readOk ∈ (main argv env stack).trace) := by
  constructor
  · intro hs
    have hm := main_of_query_failed argv env stack name dirtyByte dirtyFlag hd ho hdesc hs
    rw [hm]
    simp [opened_trace, Event.is_read, Event.is_write]
  · intro hs
    cases hr : env.readOk
    · rw [main_of_read_failed argv env stack name dirtyByte dirtyFlag 4096 hd ho hdesc hs
        (le_refl _) hr]
      simp [read_trace, hr]
    · by_cases hbit : sector_read env stack 4096 dirtyByte &&& dirtyFlag = 0
      · rw [main_of_clean argv env stack name dirtyByte dirtyFlag 4096 hd ho hdesc hs
          (le_refl _) hr hbit]
        simp [read_trace, hr]
      · rw [main_of_dirty argv env stack name dirtyByte dirtyFlag 4096 hd ho hdesc hs
          (le_refl _) hr hbit]
        simp [read_trace, hr]

/-- C7 on FAT32 volumes that report sector sizes of 8192 and of 4096. -/
theorem oversized_sector_is_not_read_witness :
    drive_name argv_E = some name_E ∧
    dirty_descriptor (volume_name name_E big_sector_env.fsName) = some (0x41, 0x01) ∧
    (main argv_E big_sector_env zero_stack).status = 1 ∧
    outputs (main argv_E big_sector_env zero_stack).trace = [.fputs_stderr read_failed_text] ∧
    (∀ e ∈ (main argv_E big_sector_env zero_stack).trace, e.is_read = false ∧ e.is_write = false) ∧
    Event.ReadFile 0 4096 true ∈ (main argv_E page_sector_env zero_stack).trace :=
  ⟨by decide, by decide, by decide, by decide,
    ((oversized_sector_is_not_read argv_E big_sector_env zero_stack name_E 0x41 0x01
      (by decide) rfl (by decide)).1 (Or.inr ⟨8192, rfl, by decide⟩)).2,
    (oversized_sector_is_not_read argv_E page_sector_env zero_stack name_E 0x41 0x01
      (by decide) rfl (by decide)).2 rfl⟩

/-- C8. On a device with a supported label, a sector size that is at most
4096 and covers the descriptor's offset, and the mask bit set in sector 0, on
which every call succeeds and which stores what is written: the first run
returns 0 and writes "Dirty bit successfully cleared."; the second run, which
reads what the first wrote, returns 0, writes "Drive is clean.", makes no
`WriteFile` and does not write "Dirty bit successfully cleared.". -/
theorem second_run_finds_the_drive_clean (argv : List (List Nat)) (d : Device)
    (lock1 lock2 : Bool) (stack1 stack2 : Nat → Nat)
    (name : name_buf_t) (dirtyByte dirtyFlag : Nat)
    (hd : drive_name argv = some name)
    (hdesc : dirty_descriptor (volume_name name (some d.fsName)) = some (dirtyByte, dirtyFlag))
    (hsz : d.sectorSize ≤ 4096) (hcov : dirtyByte < d.sectorSize)
    (hbit : to_u8 (d.bytes dirtyByte) &&& dirtyFlag ≠ 0) :
    (first_run argv d lock1 stack1).status = 0 ∧
    outputs (first_run argv d lock1 stack1).trace = [.puts cleared_text] ∧
    (second_run argv d lock1 stack1 lock2 stack2).status = 0 ∧
    outputs (second_run argv d lock1 stack1 lock2 stack2).trace = [.puts clean_text] ∧
    (∀ e ∈ (second_run argv d lock1 stack1 lock2 stack2).trace, e.is_write = false) ∧
    Event.puts cleared_text ∉ (second_run argv d lock1 stack1 lock2 stack2).trace := by
  have h1 := first_run_eq argv d lock1 stack1 name dirtyByte dirtyFlag hd hdesc hsz hcov hbit
  have ha := after_first_run argv d lock1 stack1 name dirtyByte dirtyFlag hd hdesc hsz hcov hbit
  have hx : sector_read (d.env lock1) stack1 d.sectorSize dirtyByte = to_u8 (d.bytes dirtyByte) :=
    sector_read_device d lock1 stack1 dirtyByte hcov
  have hzero : to_u8 (to_u8 (d.bytes dirtyByte) &&& int_not dirtyFlag) &&& dirtyFlag = 0 := by
    rcases dirty_descriptor_cases _ _ _ hdesc with ⟨-, rfl⟩ | ⟨-, rfl⟩
    · exact (clear_bit0 _ (to_u8_lt _) hbit).2.1
    · exact (clear_bit1 _ (to_u8_lt _) hbit).2.1
  have hclean : sector_read ((d.write 0 ((List.range d.sectorSize).map
        (clear_flag (sector_read (d.env lock1) stack1 d.sectorSize) dirtyByte dirtyFlag))).env lock2)
      stack2 d.sectorSize dirtyByte &&& dirtyFlag = 0 := by
    have : sector_read ((d.write 0 ((List.range d.sectorSize).map
          (clear_flag (sector_read (d.env lock1) stack1 d.sectorSize) dirtyByte dirtyFlag))).env
            lock2) stack2 d.sectorSize dirtyByte
        = to_u8 ((d.write 0 ((List.range d.sectorSize).map
          (clear_flag (sector_read (d.env lock1) stack1 d.sectorSize) dirtyByte dirtyFlag))).bytes
            dirtyByte) :=
      sector_read_device (d.write 0 ((List.range d.sectorSize).map
        (clear_flag (sector_read (d.env lock1) stack1 d.sectorSize) dirtyByte dirtyFlag)))
        lock2 stack2 dirtyByte hcov
    rw [this]
    simp only [Device.write, Nat.zero_le, true_and, Nat.zero_add, List.length_map, List.length_range, hcov,
      if_true, Nat.sub_zero, getD_map_range _ _ _ hcov, clear_flag, hx, to_u8_idem]
    exact hzero
  have h2 : second_run argv d lock1 stack1 lock2 stack2 =
      ⟨0, read_trace name ((d.write 0 ((List.range d.sectorSize).map
          (clear_flag (sector_read (d.env lock1) stack1 d.sectorSize) dirtyByte dirtyFlag))).env
            lock2) d.sectorSize ++ [.puts clean_text, .CloseHandle],
        sector_read ((d.write 0 ((List.range d.sectorSize).map
          (clear_flag (sector_read (d.env lock1) stack1 d.sectorSize) dirtyByte dirtyFlag))).env
            lock2) stack2 d.sectorSize⟩ := by
    unfold second_run
    rw [ha]
    exact main_of_clean argv _ stack2 name dirtyByte dirtyFlag d.sectorSize hd rfl hdesc rfl hsz
      rfl hclean
  rw [h1, h2]
  refine ⟨rfl, ?_, rfl, ?_, ?_, ?_⟩
  · cases lock1 <;>
      simp [outputs, read_trace, opened_trace, Event.is_output, List.filter_cons]
  · simp [outputs, read_trace, opened_trace, Event.is_output, List.filter_cons]
  · simp [read_trace, opened_trace, Event.is_write]
  · simp [read_trace, opened_trace, cleared_text, clean_text]

/-- C8 on a FAT32 device with 512-byte sectors whose byte `0x41` is `0x01`. -/
theorem second_run_finds_the_drive_clean_witness :
    drive_name argv_E = some name_E ∧
    dirty_descriptor (volume_name name_E (some dirty_fat32_device.fsName)) = some (0x41, 0x01) ∧
    to_u8 (dirty_fat32_device.bytes 0x41) &&& 0x01 ≠ 0 ∧
    ((first_run argv_E dirty_fat32_device true zero_stack).status = 0 ∧
      outputs (first_run argv_E dirty_fat32_device true zero_stack).trace = [.puts cleared_text] ∧
      (second_run argv_E dirty_fat32_device true zero_stack true ones_stack).status = 0 ∧
      outputs (second_run argv_E dirty_fat32_device true zero_stack true ones_stack).trace
        = [.puts clean_text] ∧
      (∀ e ∈ (second_run argv_E dirty_fat32_device true zero_stack true ones_stack).trace,
        e.is_write = false) ∧
      Event.puts cleared_text
        ∉ (second_run argv_E dirty_fat32_device true zero_stack true ones_stack).trace) :=
  ⟨by decide, by decide, by decide,
    second_run_finds_the_drive_clean argv_E dirty_fat32_device true true zero_stack ones_stack
      name_E 0x41 0x01 (by decide) (by decide) (by decide) (by decide) (by decide)⟩

/-- C9. A dismount is requested exactly in the runs in which the lock attempt
returned success and a `WriteFile` returned success.  The status and the texts
written are the same whatever the lock attempt and the dismount request
return.  A run whose lock attempt fails and whose `WriteFile` succeeds returns
0, writes "Dirty bit successfully cleared." and requests no dismount. -/
theorem dismount_iff_locked_and_written (argv : List (List Nat)) (env : Env)
    (stack : Nat → Nat) :
    ((∃ ok, Event.DismountVolume ok ∈ (main argv env stack).trace) ↔
      (Event.LockVolume true ∈ (main argv env stack).trace ∧
        ∃ pos data, Event.WriteFile pos data true ∈ (main argv env stack).trace)) ∧
    (∀ lockOk dismountOk,
      (main argv (env.with_lock lockOk dismountOk) stack).status = (main argv env stack).status ∧
      outputs (main argv (env.with_lock lockOk dismountOk) stack).trace
        = outputs (main argv env stack).trace) ∧
    (env.lockOk = false →
      (∃ pos data, Event.WriteFile pos data true ∈ (main argv env stack).trace) →
      (main argv env stack).status = 0 ∧
      outputs (main argv env stack).trace = [.puts cleared_text] ∧
      ∀ e ∈ (main argv env stack).trace, e.is_dismount = false) := by
  rcases main_cases argv env stack with
    ⟨hd, hm⟩ | ⟨name, hd, ho, hm⟩ | ⟨name, hd, ho, hdesc, hm⟩ | ⟨name, b, f, hd, ho, hdesc, hs, hm⟩ |
    ⟨name, b, f, size, hd, ho, hdesc, hs, hsz, hr, hm⟩ |
    ⟨name, b, f, size, hd, ho, hdesc, hs, hsz, hr, hbit, hm⟩ |
    ⟨name, b, f, size, hd, ho, hdesc, hs, hsz, hr, hbit, hm⟩
  · refine ⟨?_, ?_, ?_⟩
    · rw [hm]
      simp [usage_outcome]
    · intro l k
      rw [hm, main_of_rejected argv (env.with_lock l k) stack hd]
      simp
    · rw [hm]
      simp [usage_outcome]
  · refine ⟨?_, ?_, ?_⟩
    · rw [hm]
      simp
    · intro l k
      rw [hm, main_of_no_access argv (env.with_lock l k) stack name hd ho]
      simp
    · rw [hm]
      simp
  · refine ⟨?_, ?_, ?_⟩
    · rw [hm]
      simp [opened_trace]
    · intro l k
      rw [hm, main_of_unsupported argv (env.with_lock l k) stack name hd ho hdesc]
      simp [outputs, opened_trace, Event.is_output, List.filter_cons]
    · rw [hm]
      simp [opened_trace]
  · refine ⟨?_, ?_, ?_⟩
    · rw [hm]
      simp [opened_trace]
    · intro l k
      rw [hm, main_of_query_failed argv (env.with_lock l k) stack name b f hd ho hdesc hs]
      simp [outputs, opened_trace, Event.is_output, List.filter_cons]
    · rw [hm]
      simp [opened_trace]
  · refine ⟨?_, ?_, ?_⟩
    · rw [hm]
      simp [opened_trace, read_trace]
    · intro l k
      rw [hm, main_of_read_failed argv (env.with_lock l k) stack name b f size hd ho hdesc hs hsz hr]
      simp [outputs, opened_trace, read_trace, Event.is_output, List.filter_cons]
    · rw [hm]
      simp [opened_trace, read_trace]
  · refine ⟨?_, ?_, ?_⟩
    · rw [hm]
      simp [opened_trace, read_trace]
    · intro l k
      rw [hm, main_of_clean argv (env.with_lock l k) stack name b f size hd ho hdesc hs hsz hr hbit]
      simp [outputs, opened_trace, read_trace, Event.is_output, List.filter_cons]
    · rw [hm]
      simp [opened_trace, read_trace]
  · refine ⟨?_, ?_, ?_⟩
    · rw [hm]
      cases hk : env.seekOk <;> cases hw : env.writeOk <;> cases hl : env.lockOk <;>
        simp [opened_trace, read_trace, hl]
    · intro l k
      rw [hm, main_of_dirty argv (env.with_lock l k) stack name b f size hd ho hdesc hs hsz hr hbit]
      cases hk : env.seekOk <;> cases hw : env.writeOk <;> cases hl : env.lockOk <;> cases l <;>
        simp [outputs, opened_trace, read_trace, Event.is_output, List.filter_cons,
          Env.with_lock, hk, hw, hl]
    · intro hl
      rw [hm]
      cases hk : env.seekOk <;> cases hw : env.writeOk <;>
        simp [outputs, opened_trace, read_trace, Event.is_output, Event.is_dismount,
          List.filter_cons, hl]

/-- C9 on a dirty FAT32 volume whose lock attempt fails and whose write
succeeds: status 0, "Dirty bit successfully cleared.", no dismount. -/
theorem dismount_iff_locked_and_written_witness :
    unlocked_env.lockOk = false ∧
    Event.WriteFile 0 ((List.range 512).map (main argv_E unlocked_env zero_stack).sectorBytes) true
      ∈ (main argv_E unlocked_env zero_stack).trace ∧
    ((main argv_E unlocked_env zero_stack).status = 0 ∧
      outputs (main argv_E unlocked_env zero_stack).trace = [.puts cleared_text] ∧
      ∀ e ∈ (main argv_E unlocked_env zero_stack).trace, e.is_dismount = false) :=
  ⟨rfl, by decide,
    (dismount_iff_locked_and_written argv_E unlocked_env zero_stack).2.2 rfl
      ⟨0, (List.range 512).map (main argv_E unlocked_env zero_stack).sectorBytes, by decide⟩⟩

/-- C10. A drive specification `s` (the bytes of `argv[1]` before its NUL) is
accepted, which is to say a device is opened, if and only if it is an ASCII
letter followed by `:` and nothing else; the path opened is then
`\\.\<U>:` with `U` the uppercase letter.  Every other `s`, and a missing
argument, ends the run with the usage text on the error stream and status 1,
and opens no device. -/
theorem drive_spec_validation (prog s : List Nat) (rest : List (List Nat)) (env : Env)
    (stack : Nat → Nat) (hs : ∀ c ∈ s, 0 < c ∧ c < 256) :
    ((∃ e ∈ (main (prog :: s :: rest) env stack).trace, e.is_open = true)
        ↔ ∃ l, is_letter l ∧ s = [l, 58]) ∧
    (∀ l, is_letter l → s = [l, 58] →
        (main (prog :: s :: rest) env stack).trace.head?
          = some (.CreateFileW (device_path (upper l)) env.createFileOk)) ∧
    ((¬ ∃ l, is_letter l ∧ s = [l, 58]) →
        main (prog :: s :: rest) env stack = ⟨1, [.fputs_stderr usage_text], sector_uninit stack⟩) ∧
    main [] env stack = ⟨1, [.fputs_stderr usage_text], sector_uninit stack⟩ ∧
    main [prog] env stack = ⟨1, [.fputs_stderr usage_text], sector_uninit stack⟩ := by
  have hiff := drive_name_accepts_iff prog s rest hs
  refine ⟨?_, ?_, ?_, ?_, ?_⟩
  · rw [← hiff]
    cases hd : drive_name (prog :: s :: rest) with
    | none => simp [main_of_rejected _ env stack hd, usage_outcome, Event.is_open]
    | some name =>
      obtain ⟨t, ht⟩ := main_trace_of_accepted _ env stack name hd
      simp [ht, Event.is_open]
  · rintro l hl rfl
    have bl : l < 256 := by unfold is_letter at hl; omega
    have hd : drive_name (prog :: [l, 58] :: rest) = some ⟨[92, 92, 46, 92, upper l, 58, 0, 0]⟩ := by
      rw [drive_name_cons, if_neg (accepts_letter l hl)]
      simp only [List.getD_cons_zero, letter_upper l bl hl]
    obtain ⟨t, ht⟩ := main_trace_of_accepted _ env stack _ hd
    have hu : upper l ≠ 0 := by unfold upper is_letter at *; split_ifs <;> omega
    simp [ht, name_buf_t.wcsz, List.takeWhile_cons, device_path, hu]
  · intro hn
    have hd : drive_name (prog :: s :: rest) = none := by
      by_contra hc
      exact hn (hiff.1 hc)
    simpa [usage_outcome] using main_of_rejected _ env stack hd
  · simpa [usage_outcome] using main_of_rejected [] env stack (drive_name_short _ (by simp))
  · simpa [usage_outcome] using main_of_rejected [prog] env stack (drive_name_short _ (by simp))

/-- C10 for the arguments `e:`, `E:`, `E`, `EE:`, `1:` and the empty argument. -/
theorem drive_spec_validation_witness :
    (∀ c ∈ [101, 58], 0 < c ∧ c < 256) ∧
    (main [[], [101, 58]] dirty_fat32_env zero_stack).trace.head?
      = some (.CreateFileW (device_path 69) true) ∧
    (main [[], [69, 58]] dirty_fat32_env zero_stack).trace.head?
      = some (.CreateFileW (device_path 69) true) ∧
    main [[], [69]] dirty_fat32_env zero_stack
      = ⟨1, [.fputs_stderr usage_text], sector_uninit zero_stack⟩ ∧
    main [[], [69, 69, 58]] dirty_fat32_env zero_stack
      = ⟨1, [.fputs_stderr usage_text], sector_uninit zero_stack⟩ ∧
    main [[], [49, 58]] dirty_fat32_env zero_stack
      = ⟨1, [.fputs_stderr usage_text], sector_uninit zero_stack⟩ ∧
    main [[], []] dirty_fat32_env zero_stack
      = ⟨1, [.fputs_stderr usage_text], sector_uninit zero_stack⟩ :=
  ⟨by decide,
    (drive_spec_validation [] [101, 58] [] dirty_fat32_env zero_stack (by decide)).2.1 101
      (by decide) rfl,
    (drive_spec_validation [] [69, 58] [] dirty_fat32_env zero_stack (by decide)).2.1 69
      (by decide) rfl,
    (drive_spec_validation [] [69] [] dirty_fat32_env zero_stack (by decide)).2.2.1
      (by simp),
    (drive_spec_validation [] [69, 69, 58] [] dirty_fat32_env zero_stack (by decide)).2.2.1
      (by simp),
    (drive_spec_validation [] [49, 58] [] dirty_fat32_env zero_stack (by decide)).2.2.1
      (by simp [is_letter]),
    (drive_spec_validation [] [] [] dirty_fat32_env zero_stack (by decide)).2.2.1
      (by simp)⟩

end Claims

end ClearFATDirtyBit
